import Mathlib

/-!
Shallow embedding of the KDMS backend (Kenya Disaster Management System)
core: the database rows and write helpers (`database.py`), the scheduled
collection/registration pipeline (`scheduler.py`), the AI risk/SMS jobs with
their deterministic fallbacks and retry policy (`gemini_service.py`), the SMS
gateway wrapper (`sms_service.py`), and the alert-dispatch write path
(`main.py`).  Coordinates and weather quantities are modelled as rationals,
machine timestamps as abstract naturals, and SQL rows as Lean structures.
-/

namespace KDMS

/-- Python `int(x)` truncates a real toward zero. -/
def pytrunc (q : ℚ) : ℤ := if q < 0 then ⌈q⌉ else ⌊q⌋

/-- Python `round(x, 2)`: round to two decimal places.  We use round-half-up;
it agrees with Python's float rounding on every input whose scaled value is
not exactly half-way between two integers (all inputs used below). -/
def round2 (q : ℚ) : ℚ := (⌊q * 100 + 1/2⌋ : ℚ) / 100

/-- A row of the `counties` table (`database.py`, `init_db`). -/
structure County where
  id : Nat
  name : String
  region : String
  lat : ℚ
  lng : ℚ
  risk_score : ℤ
  last_updated : Option Nat
deriving DecidableEq

/-- A row of the `disasters` table (`database.py`, `init_db`). -/
structure Disaster where
  id : Nat
  dtype : String
  severity : String
  county_id : Option Nat
  location : String
  lat : Option ℚ
  lng : Option ℚ
  affected_people : ℤ
  description : String
  source : String
  status : String
  resolved_at : Option Nat
deriving DecidableEq

/-- A row of the `alerts` table (`database.py`, `init_db`). -/
structure AlertRecord where
  id : Nat
  disaster_id : Nat
  message_en : String
  message_sw : String
  recipients_count : Nat
  status : String
deriving DecidableEq

/-- The persisted state: the three tables the core writes, plus the SQLite
AUTOINCREMENT counters supplying fresh primary keys. -/
structure DB where
  counties : List County
  disasters : List Disaster
  alerts : List AlertRecord
  nextDisasterId : Nat
  nextAlertId : Nat
deriving DecidableEq

def emptyDB : DB := ⟨[], [], [], 1, 1⟩

/-- Payload of `insert_disaster` (`database.py`): the caller-supplied columns,
the id coming from AUTOINCREMENT. -/
structure DisasterData where
  dtype : String
  severity : String
  county_id : Option Nat
  location : String
  lat : Option ℚ
  lng : Option ℚ
  affected_people : ℤ
  description : String
  source : String
  status : String
deriving DecidableEq

def DisasterData.toRow (id : Nat) (d : DisasterData) : Disaster :=
  ⟨id, d.dtype, d.severity, d.county_id, d.location, d.lat, d.lng,
   d.affected_people, d.description, d.source, d.status, none⟩

/-- `insert_disaster` (`database.py`): INSERT a new row into `disasters`. -/
def insert_disaster (db : DB) (d : DisasterData) : DB :=
  { db with disasters := db.disasters ++ [d.toRow db.nextDisasterId],
            nextDisasterId := db.nextDisasterId + 1 }

/-- `insert_alert` (`database.py`): INSERT a new row into `alerts`;
`status` defaults to `'sent'`. -/
def insert_alert (db : DB) (disaster_id : Nat) (msg_en msg_sw : String)
    (count : Nat) : DB :=
  { db with alerts := db.alerts ++ [⟨db.nextAlertId, disaster_id, msg_en, msg_sw, count, "sent"⟩],
            nextAlertId := db.nextAlertId + 1 }

/-- The per-row effect of `update_county_risk` (`database.py`):
`UPDATE counties SET risk_score=?, last_updated=? WHERE id=?`. -/
def riskUpdateRow (county_id : Nat) (risk_score : ℤ) (now : Nat) (c : County) : County :=
  if c.id = county_id then { c with risk_score := risk_score, last_updated := some now } else c

/-- `update_county_risk` (`database.py`). -/
def update_county_risk (db : DB) (county_id : Nat) (risk_score : ℤ) (now : Nat) : DB :=
  { db with counties := db.counties.map (riskUpdateRow county_id risk_score now) }

/-- `resolve_disaster` (`main.py`):
`UPDATE disasters SET status='resolved', resolved_at=datetime('now') WHERE id=?`. -/
def resolve_disaster (db : DB) (disaster_id : Nat) (now : Nat) : DB :=
  { db with disasters := db.disasters.map fun d =>
      if d.id = disaster_id then { d with status := "resolved", resolved_at := some now } else d }

/-- A normalized seismic event as produced by `fetch_earthquakes`
(`data_sources.py`). -/
structure Quake where
  magnitude : ℚ
  place : String
  lat : ℚ
  lng : ℚ
  depth_km : ℚ
  severity : String
deriving DecidableEq

/-- The row payload the seismic step inserts for a registered event
(`scheduler.py`, step 2): the event's raw (unrounded) coordinates, its derived
severity, and an active status. -/
def quakeData (q : Quake) : DisasterData :=
  ⟨"Earthquake", q.severity, none, q.place, some q.lat, some q.lng, 0,
   "M" ++ toString q.magnitude ++ " earthquake at depth " ++ toString q.depth_km
     ++ "km — " ++ q.place,
   "usgs", "active"⟩

/-- The seismic-registration step of `_collect_and_analyse` (`scheduler.py`,
step 2) for one fetched event: if magnitude ≥ 3.5, SELECT existing rows with
`type='Earthquake' AND lat=? AND lng=?` against the event's coordinates
rounded to two decimals; if none match, INSERT a row carrying the event's raw
(unrounded) coordinates.  A stored NULL coordinate never matches `lat=?`. -/
def registerQuake (db : DB) (q : Quake) : DB :=
  if (7:ℚ)/2 ≤ q.magnitude then
    if (db.disasters.filter fun d =>
          decide (d.dtype = "Earthquake" ∧ d.lat = some (round2 q.lat) ∧
                  d.lng = some (round2 q.lng))).isEmpty then
      insert_disaster db (quakeData q)
    else db
  else db

/-- A wildfire hotspot row as produced by `fetch_wildfires` (`data_sources.py`). -/
structure Hotspot where
  lat : ℚ
  lng : ℚ
  brightness : ℚ
  confidence : String
  acq_date : String
deriving DecidableEq

/-- The dedup test of the wildfire-registration step (`scheduler.py`, step 3):
`SELECT id FROM disasters WHERE type='Wildfire' AND lat BETWEEN ? AND ?`
against the first hotspot's latitude ± 0.5; a stored NULL latitude never
matches BETWEEN. -/
def fireMatches (fire : Hotspot) (d : Disaster) : Bool :=
  decide (d.dtype = "Wildfire") &&
    (match d.lat with
     | some l => decide (fire.lat - 1/2 ≤ l ∧ l ≤ fire.lat + 1/2)
     | none => false)

/-- The representative-incident payload the wildfire step inserts for a
cluster of `n` hotspots whose first member is `fire` (`scheduler.py`, step 3). -/
def fireClusterData (n : Nat) (fire : Hotspot) : DisasterData :=
  ⟨"Wildfire", if 20 < n then "High" else "Medium", none, "Northern Kenya",
   some fire.lat, some fire.lng, 0,
   toString n ++ " active fire hotspots detected via NASA FIRMS satellite.",
   "nasa_firms", "active"⟩

/-- The wildfire-registration step of `_collect_and_analyse` (`scheduler.py`,
step 3): act only on a non-empty batch of more than 5 hotspots; dedup against
the first hotspot's latitude; insert one representative Incident, severity
High when the batch exceeds 20 hotspots, else Medium. -/
def registerFires (db : DB) (fires : List Hotspot) : DB :=
  match fires with
  | [] => db
  | fire :: _ =>
    if 5 < fires.length then
      if (db.disasters.filter (fireMatches fire)).isEmpty then
        insert_disaster db (fireClusterData fires.length fire)
      else db
    else db

/-- Result record of the risk-scoring job (`gemini_service.py`,
`score_county_risk` / `_fallback_risk`): the bit-relevant fields score,
disaster type and confidence.  The free-text `reasoning` field is not
modelled. -/
structure RiskAssessment where
  risk_score : ℤ
  disaster_type : String
  confidence : String
deriving DecidableEq

/-- The clamp applied on the AI-success path of `score_county_risk`
(`gemini_service.py`): `max(0, min(100, int(result.get("risk_score", 0))))`,
taking the already-truncated integer as input. -/
def clampRisk (x : ℤ) : ℤ := max 0 (min 100 x)

/-- `_fallback_risk` (`gemini_service.py`): the deterministic fallback risk
score, with the `random.randint(0, 15)` jitter made an explicit parameter.
`score = min(100, int(rainfall * 2.5 + max(0, temp - 32) * 1.5 + jitter))`;
disaster type `Flood` if rainfall > 20, else `Drought` if temp > 36 and
rainfall < 2, else `None`; confidence forced to `Low`. -/
def fallback_risk (rainfall temp : ℚ) (jitter : ℤ) : RiskAssessment :=
  ⟨min 100 (pytrunc (rainfall * (5/2) + max 0 (temp - 32) * (3/2) + (jitter : ℚ))),
   if 20 < rainfall then "Flood"
   else if 36 < temp ∧ rainfall < 2 then "Drought"
   else "None",
   "Low"⟩

/-- Python slice `s[:n]` on a string. -/
def pyslice (s : String) (n : Nat) : String := String.mk (s.data.take n)

/-- The hard cap applied per language on the AI-success path of
`generate_sms_alert` (`gemini_service.py`): if the text exceeds 160
characters, replace it with its first 157 characters followed by `...`. -/
def capMessage (s : String) : String :=
  if 160 < s.length then pyslice s 157 ++ "..." else s

/-- `_fallback_sms` (`gemini_service.py`): the deterministic bilingual SMS
fallback, as a function of the disaster's type string and the resolved
county/location string; returns (english, swahili). -/
def fallback_sms (dtype county : String) : String × String :=
  ("NDMA ALERT: " ++ dtype ++ " warning in " ++ county
     ++ ". Evacuate to nearest refuge immediately. Call 1199.",
   "TAHADHARI: " ++ dtype ++ " katika " ++ county
     ++ ". Nenda kituo cha wakimbizi. Piga simu 1199.")

/-- What one generation attempt against the model does: succeed with text, or
fail, the failure classified transient exactly when `_generate`'s test
(`"429" in str(e) or "quota"/"rate" in str(e).lower()`) holds. -/
inductive AttemptResult where
  | success (text : String)
  | failure (transient : Bool)
deriving DecidableEq

/-- The observable outcome of `_generate` (`gemini_service.py`): the returned
text (`none` = an exception surfaced), how many generation attempts ran, and
the sleeps performed, in seconds and in order. -/
structure GenTrace where
  result : Option String
  attempts : Nat
  waits : List Nat
deriving DecidableEq

/-- `wait_times = [5, 15, 30]` (`gemini_service.py`, `_generate`). -/
def wait_times : List Nat := [5, 15, 30]

/-- The retry loop of `_generate` (`gemini_service.py`): `for attempt in
range(3)`, return on success, on a transient failure sleep
`wait_times[attempt]` and continue, on a non-transient failure raise
immediately; after the loop raise the last exception.  `o` gives the outcome
attempt `attempt` would produce; `fuel` counts the remaining iterations. -/
def genLoop (o : Nat → AttemptResult) : Nat → Nat → List Nat → GenTrace
  | 0, attempt, waits => ⟨none, attempt, waits⟩
  | fuel + 1, attempt, waits =>
    match o attempt with
    | .success t => ⟨some t, attempt + 1, waits⟩
    | .failure true => genLoop o fuel (attempt + 1) (waits ++ [wait_times.getD attempt 0])
    | .failure false => ⟨none, attempt + 1, waits⟩

/-- `_generate` (`gemini_service.py`) as a trace over prescribed attempt
outcomes. -/
def run_generate (o : Nat → AttemptResult) : GenTrace := genLoop o 3 0 []

/-- E.164 normalization in `send_bulk_sms` (`sms_service.py`):
strip, drop spaces, rewrite trunk 07/01 to `+254`, give bare `254` a `+`. -/
def formatPhone (num : String) : String :=
  let n := (num.trim).replace " " ""
  if n.startsWith "07" || n.startsWith "01" then "+254" ++ n.drop 1
  else if n.startsWith "254" && !n.startsWith "+" then "+" ++ n
  else n

/-- What the messaging gateway does with one submission (`sms_service.py`):
no configured client (mock mode), a per-recipient success/failure response, or
an exception from `sms.send`. -/
inductive Gateway where
  | noClient
  | response (recipientSuccess : List Bool)
  | sendError
deriving DecidableEq

/-- The `{sent, failed}` counts `send_bulk_sms` returns. -/
structure SmsOutcome where
  sent : Nat
  failed : Nat
deriving DecidableEq

/-- `send_bulk_sms` (`sms_service.py`): empty recipient list returns
`{sent: 0, failed: 0}`; otherwise format the numbers and either mock-send
(every number counted sent), count the gateway's per-recipient `Success`
statuses, or report all failed on an exception. -/
def send_bulk_sms (phones : List String) (g : Gateway) : SmsOutcome :=
  if phones.isEmpty then ⟨0, 0⟩
  else
    let formatted := phones.map formatPhone
    match g with
    | .noClient => ⟨formatted.length, 0⟩
    | .response rs => ⟨(rs.filter (· = true)).length,
                       formatted.length - (rs.filter (· = true)).length⟩
    | .sendError => ⟨0, formatted.length⟩

/-- The background `_send` task of `send_alert` (`main.py`): call
`send_bulk_sms`, then — only if the phone list is non-empty — persist one
AlertRecord whose recipient count is the gateway outcome's `sent` field. -/
def send_alert_send (db : DB) (disaster_id : Nat) (msg_en msg_sw : String)
    (phones : List String) (g : Gateway) : DB :=
  let result := send_bulk_sms phones g
  if phones.isEmpty then db
  else insert_alert db disaster_id msg_en msg_sw result.sent

/-- The core's write operations, for stating state-machine invariants:
the two scheduler registrations, the risk-score persist, the alert-dispatch
audit write, and the admin resolve action. -/
inductive Op where
  | registerQuake (q : Quake)
  | registerFires (fires : List Hotspot)
  | updateRisk (county_id : Nat) (risk_score : ℤ) (now : Nat)
  | sendAlert (disaster_id : Nat) (msg_en msg_sw : String)
      (phones : List String) (g : Gateway)
  | resolve (disaster_id : Nat) (now : Nat)

/-- One step of the core acting on the persisted state. -/
def step (db : DB) : Op → DB
  | .registerQuake q => registerQuake db q
  | .registerFires fires => registerFires db fires
  | .updateRisk county_id risk_score now => update_county_risk db county_id risk_score now
  | .sendAlert disaster_id msg_en msg_sw phones g =>
      send_alert_send db disaster_id msg_en msg_sw phones g
  | .resolve disaster_id now => resolve_disaster db disaster_id now

/-- The status column of the disaster row with the given id (ids are unique
in SQLite, so the first match is the row). -/
def statusOf (db : DB) (i : Nat) : Option String :=
  (db.disasters.find? fun d => d.id == i).map (·.status)

/-- A concrete fetched seismic event: magnitude 4.0 at (1.234, 36.789),
coordinates carrying three decimal places, as USGS coordinates do. -/
def sampleQuake : Quake :=
  ⟨4, "Lake Turkana region", 1234/1000, 36789/1000, 10, "Medium"⟩

/-- A concrete wildfire hotspot. -/
def sampleHotspot : Hotspot := ⟨2, 37, 330, "nominal", "2026-02-01"⟩

/-- A concrete long free-text location, as a field-worker report or a USGS
place string can carry. -/
def longLocation : String :=
  "Informal settlements along the lower Tana River delta floodplain between Garsen, Witu and Kipini townships"

/-- A state holding one resolved incident (id 1). -/
def dbResolved : DB :=
  ⟨[], [⟨1, "Flood", "High", none, "Garissa", none, none, 0,
         "river flooding", "manual", "resolved", some 3⟩], [], 2, 1⟩

/-- A concrete county row. -/
def sampleCounty : County := ⟨1, "Nairobi", "Nairobi", 13/10, 368/10, 10, none⟩

/-- A state holding one county row. -/
def sampleDB : DB := ⟨[sampleCounty], [], [], 1, 1⟩

/-- Unfolding lemma: an insert appends exactly one row. -/
theorem insert_disaster_disasters (db : DB) (d : DisasterData) :
    (insert_disaster db d).disasters = db.disasters ++ [d.toRow db.nextDisasterId] := rfl

/-- The seismic step inserts whenever the magnitude gate passes and the dedup
SELECT finds no matching row. -/
theorem registerQuake_inserts (db : DB) (q : Quake)
    (hmag : (7:ℚ)/2 ≤ q.magnitude)
    (hno : ∀ d ∈ db.disasters,
      ¬(d.dtype = "Earthquake" ∧ d.lat = some (round2 q.lat) ∧
        d.lng = some (round2 q.lng))) :
    registerQuake db q = insert_disaster db (quakeData q) := by
  have hfil : (db.disasters.filter fun d =>
      decide (d.dtype = "Earthquake" ∧ d.lat = some (round2 q.lat) ∧
              d.lng = some (round2 q.lng))).isEmpty = true := by
    rw [List.isEmpty_eq_true, List.filter_eq_nil_iff]
    intro a ha
    simpa using hno a ha
  unfold registerQuake
  rw [if_pos hmag, if_pos hfil]

/-- The wildfire step inserts whenever the batch exceeds the cluster
threshold and the dedup SELECT finds no matching row. -/
theorem registerFires_inserts (db : DB) (fire : Hotspot) (rest : List Hotspot)
    (hlen : 5 < (fire :: rest).length)
    (hno : ∀ d ∈ db.disasters, fireMatches fire d = false) :
    registerFires db (fire :: rest) =
      insert_disaster db (fireClusterData (fire :: rest).length fire) := by
  have hfil : (db.disasters.filter (fireMatches fire)).isEmpty = true := by
    rw [List.isEmpty_eq_true, List.filter_eq_nil_iff]
    intro a ha
    simp [hno a ha]
  simp only [registerFires]
  rw [if_pos hlen, if_pos hfil]

/-- C6: with the jitter term fixed to 0, the deterministic fallback risk
scorer at rainfall_mm = 45, temp_c = 25 returns score
min(100, int(45·2.5 + 0)) = 100, disaster type "Flood" (rainfall > 20) and
confidence "Low"; being a pure function of (rainfall, temp, jitter), it is
deterministic for identical inputs once the jitter is fixed. -/
theorem fallback_risk_at_45_25 :
    fallback_risk 45 25 0 = ⟨100, "Flood", "Low"⟩ := by
  unfold fallback_risk
  norm_num [pytrunc]

/-- C1: the seismic dedup is broken — the SELECT compares the stored
coordinates against the event's coordinates rounded to two decimals, but the
INSERT stores the raw coordinates, so for an event whose coordinates differ
from their rounding the same event registered in two cycles inserts two
Earthquake incidents, where the claim says the second cycle is a no-op. -/
theorem earthquake_dedup_two_cycles :
    (registerQuake (registerQuake emptyDB sampleQuake) sampleQuake).disasters.length = 2
      ∧ (2 : Nat) ≠ 1 := by
  refine ⟨?_, by norm_num⟩
  have hne : ¬((1234/1000 : ℚ) = round2 (1234/1000)) := by norm_num [round2]
  have h1 : registerQuake emptyDB sampleQuake = insert_disaster emptyDB (quakeData sampleQuake) :=
    registerQuake_inserts _ _ (by norm_num [sampleQuake])
      (by intro d hd; simp [emptyDB] at hd)
  have h2 : registerQuake (insert_disaster emptyDB (quakeData sampleQuake)) sampleQuake
      = insert_disaster (insert_disaster emptyDB (quakeData sampleQuake))
          (quakeData sampleQuake) := by
    apply registerQuake_inserts _ _ (by norm_num [sampleQuake])
    intro d hd
    have hd' : d = (quakeData sampleQuake).toRow emptyDB.nextDisasterId := by
      simpa [insert_disaster, emptyDB] using hd
    subst hd'
    rintro ⟨-, hlat, -⟩
    simp only [DisasterData.toRow, quakeData, sampleQuake, Option.some.injEq] at hlat
    exact hne hlat
  rw [h1, h2]
  simp [insert_disaster, emptyDB]

/-- C3: every risk score the scorer produces lies in [0, 100]: the AI-success
path clamps with max(0, min(100, ·)); the fallback path caps at 100 and is
non-negative for every weather reading the adapters produce (rainfall_mm ≥ 0)
and every jitter drawn by randint(0, 15). -/
theorem risk_score_in_range :
    (∀ x : ℤ, 0 ≤ clampRisk x ∧ clampRisk x ≤ 100) ∧
    (∀ (rainfall temp : ℚ) (jitter : ℤ), 0 ≤ rainfall → 0 ≤ jitter → jitter ≤ 15 →
       0 ≤ (fallback_risk rainfall temp jitter).risk_score ∧
       (fallback_risk rainfall temp jitter).risk_score ≤ 100) := by
  constructor
  · intro x
    unfold clampRisk
    exact ⟨le_max_left 0 _, max_le (by norm_num) (min_le_left _ _)⟩
  · intro rainfall temp jitter hr hj _
    have hv : 0 ≤ rainfall * (5/2) + max 0 (temp - 32) * (3/2) + (jitter : ℚ) := by
      have h1 : 0 ≤ rainfall * (5/2 : ℚ) := mul_nonneg hr (by norm_num)
      have h2 : (0:ℚ) ≤ max 0 (temp - 32) * (3/2) := mul_nonneg (le_max_left _ _) (by norm_num)
      have h3 : (0:ℚ) ≤ (jitter : ℚ) := by exact_mod_cast hj
      linarith
    have hfloor : (0:ℤ) ≤ ⌊rainfall * (5/2) + max 0 (temp - 32) * (3/2) + (jitter : ℚ)⌋ :=
      Int.floor_nonneg.mpr hv
    simp only [fallback_risk, pytrunc, if_neg (not_lt.mpr hv)]
    exact ⟨le_min (by norm_num) hfloor, min_le_left _ _⟩

/-- Closed instance of `risk_score_in_range` at rainfall 45, temp 25,
jitter 0. -/
theorem risk_score_in_range_witness :
    0 ≤ (fallback_risk 45 25 0).risk_score ∧ (fallback_risk 45 25 0).risk_score ≤ 100 :=
  risk_score_in_range.2 45 25 0 (by norm_num) (by norm_num) (by norm_num)

/-- Length of a Python string slice. -/
theorem pyslice_length (s : String) (n : Nat) :
    (pyslice s n).length = min n s.length := by
  show (s.data.take n).length = min n s.data.length
  exact List.length_take n s.data

set_option maxRecDepth 8000 in
/-- C4: the 160-character cap holds on the AI-generated path (over-length
text is truncated to 157 characters plus an ellipsis), but the fallback path
applies no cap at all: with disaster type "Flood" and a long free-text
location, the fallback English message exceeds 160 characters, contradicting
both the claim and `generate_sms_alert`'s own docstring ("strictly under 160
chars each"). -/
theorem sms_fallback_exceeds_cap :
    (∀ s : String, (capMessage s).length ≤ 160) ∧
    160 < (fallback_sms "Flood" longLocation).1.length := by
  constructor
  · intro s
    unfold capMessage
    by_cases h : 160 < s.length
    · rw [if_pos h]
      have h1 : (pyslice s 157 ++ "...").length = (pyslice s 157).length + 3 := by
        show ((pyslice s 157).data ++ "...".data).length = (pyslice s 157).data.length + 3
        rw [List.length_append]
        rfl
      rw [h1, pyslice_length]
      omega
    · rw [if_neg h]; omega
  · decide

/-- C5: for a hotspot batch with no matching existing Wildfire incident, a
batch of 25 hotspots yields exactly one inserted Incident with severity High,
a batch of 8 yields exactly one with severity Medium, a batch of at most 5
(the minimum cluster threshold) yields none, and the inserted representative
Incident carries the first hotspot's coordinates. -/
theorem wildfire_cluster_cases (db : DB) (fire : Hotspot) (rest : List Hotspot)
    (hno : ∀ d ∈ db.disasters, fireMatches fire d = false) :
    ((fire :: rest).length = 25 →
       registerFires db (fire :: rest) = insert_disaster db (fireClusterData 25 fire) ∧
       (registerFires db (fire :: rest)).disasters.length = db.disasters.length + 1 ∧
       (fireClusterData 25 fire).severity = "High" ∧
       (fireClusterData 25 fire).lat = some fire.lat ∧
       (fireClusterData 25 fire).lng = some fire.lng) ∧
    ((fire :: rest).length = 8 →
       registerFires db (fire :: rest) = insert_disaster db (fireClusterData 8 fire) ∧
       (registerFires db (fire :: rest)).disasters.length = db.disasters.length + 1 ∧
       (fireClusterData 8 fire).severity = "Medium" ∧
       (fireClusterData 8 fire).lat = some fire.lat ∧
       (fireClusterData 8 fire).lng = some fire.lng) ∧
    (∀ fires : List Hotspot, fires.length ≤ 5 → registerFires db fires = db) := by
  refine ⟨?_, ?_, ?_⟩
  · intro h
    have hins := registerFires_inserts db fire rest (by omega) hno
    rw [h] at hins
    refine ⟨hins, ?_, by norm_num [fireClusterData], rfl, rfl⟩
    rw [hins, insert_disaster_disasters, List.length_append]
    rfl
  · intro h
    have hins := registerFires_inserts db fire rest (by omega) hno
    rw [h] at hins
    refine ⟨hins, ?_, by norm_num [fireClusterData], rfl, rfl⟩
    rw [hins, insert_disaster_disasters, List.length_append]
    rfl
  · intro fires hlen
    match fires, hlen with
    | [], _ => rfl
    | f :: fs, hlen =>
      simp only [registerFires]
      rw [if_neg (by omega)]

/-- Closed instance of `wildfire_cluster_cases`: a 25-hotspot batch against
an empty store inserts one High-severity representative incident. -/
theorem wildfire_cluster_cases_witness :
    registerFires emptyDB (sampleHotspot :: List.replicate 24 sampleHotspot) =
      insert_disaster emptyDB (fireClusterData 25 sampleHotspot) ∧
    (fireClusterData 25 sampleHotspot).severity = "High" :=
  have h := (wildfire_cluster_cases emptyDB sampleHotspot (List.replicate 24 sampleHotspot)
      (by intro d hd; simp [emptyDB] at hd)).1 (by simp)
  ⟨h.1, h.2.2.1⟩

/-- C7: the AI resilience wrapper makes up to three generation attempts; when
every attempt fails with a transient capacity error it sleeps 5 s, 15 s and
30 s after the respective attempts and then surfaces the failure, and a
non-transient failure at any attempt surfaces immediately, with no further
attempts and no further waits. -/
theorem generate_retry_policy :
    (∀ o : Nat → AttemptResult, (∀ i, i < 3 → o i = .failure true) →
       run_generate o = ⟨none, 3, [5, 15, 30]⟩) ∧
    (∀ (o : Nat → AttemptResult) (i : Nat), i < 3 →
       (∀ j, j < i → o j = .failure true) → o i = .failure false →
       run_generate o = ⟨none, i + 1, wait_times.take i⟩) := by
  constructor
  · intro o h
    have h0 := h 0 (by norm_num)
    have h1 := h 1 (by norm_num)
    have h2 := h 2 (by norm_num)
    simp [run_generate, genLoop, h0, h1, h2, wait_times]
  · intro o i hi hbefore hfail
    interval_cases i
    · simp [run_generate, genLoop, hfail, wait_times]
    · have h0 := hbefore 0 (by norm_num)
      simp [run_generate, genLoop, h0, hfail, wait_times]
    · have h0 := hbefore 0 (by norm_num)
      have h1 := hbefore 1 (by norm_num)
      simp [run_generate, genLoop, h0, h1, hfail, wait_times]

/-- Closed instance of `generate_retry_policy`: all-transient failures give
three attempts, waits 5/15/30, and a surfaced failure. -/
theorem generate_retry_policy_witness :
    run_generate (fun _ => AttemptResult.failure true) = ⟨none, 3, [5, 15, 30]⟩ :=
  generate_retry_policy.1 (fun _ => AttemptResult.failure true) (fun _ _ => rfl)

/-- The audit write of the dispatch path for a non-empty recipient list:
exactly one AlertRecord is appended and its recipient count is the `sent`
field of the gateway outcome. -/
theorem send_alert_send_alerts (db : DB) (disaster_id : Nat) (msg_en msg_sw : String)
    (phones : List String) (g : Gateway) (h : phones ≠ []) :
    (send_alert_send db disaster_id msg_en msg_sw phones g).alerts =
      db.alerts ++ [⟨db.nextAlertId, disaster_id, msg_en, msg_sw,
                     (send_bulk_sms phones g).sent, "sent"⟩] := by
  match phones, h with
  | p :: ps, _ => simp [send_alert_send, insert_alert]

/-- Counterexample to C2 as stated: dispatching with zero resolvable
recipient phone numbers persists no AlertRecord at all — the audit insert is
guarded by `if phones:` — where the claim says exactly one record with
recipient count 0 is persisted. -/
theorem alert_zero_recipients_no_record :
    (send_alert_send emptyDB 1 "a" "b" [] Gateway.noClient).alerts.length ≠
      emptyDB.alerts.length + 1 := by decide

/-- C2 (amended): a dispatch with at least one resolvable recipient phone
number persists exactly one AlertRecord, carrying the gateway outcome's sent
count; a dispatch with zero resolvable recipients persists no AlertRecord. -/
theorem alert_record_per_dispatch (db : DB) (disaster_id : Nat)
    (msg_en msg_sw : String) (phones : List String) (g : Gateway) :
    (phones ≠ [] →
       (send_alert_send db disaster_id msg_en msg_sw phones g).alerts =
         db.alerts ++ [⟨db.nextAlertId, disaster_id, msg_en, msg_sw,
                        (send_bulk_sms phones g).sent, "sent"⟩]) ∧
    (phones = [] → send_alert_send db disaster_id msg_en msg_sw phones g = db) := by
  constructor
  · exact send_alert_send_alerts db disaster_id msg_en msg_sw phones g
  · intro h
    subst h
    rfl

/-- Closed instance of `alert_record_per_dispatch` with one recipient. -/
theorem alert_record_per_dispatch_witness :
    (send_alert_send emptyDB 1 "a" "b" ["0712345678"] Gateway.noClient).alerts =
      emptyDB.alerts ++ [⟨emptyDB.nextAlertId, 1, "a", "b",
        (send_bulk_sms ["0712345678"] Gateway.noClient).sent, "sent"⟩] :=
  (alert_record_per_dispatch emptyDB 1 "a" "b" ["0712345678"] Gateway.noClient).1
    (by decide)

/-- Counterexample to C8 as stated: with two attempted recipients of which
the gateway reports one delivered, the persisted recipient count is 1, not
the attempted count 2. -/
theorem alert_count_not_attempted :
    ((send_alert_send emptyDB 1 "a" "b" ["0712000001", "0712000002"]
        (Gateway.response [true, false])).alerts.map (·.recipients_count)) ≠
      [(["0712000001", "0712000002"] : List String).length] := by decide

/-- C8 (amended): the recipient count stored in the persisted AlertRecord is
the gateway's reported successful-send count (`result["sent"]`), not the
number of phone numbers the dispatch attempted; the two coincide only in
mock/no-client mode. -/
theorem alert_recipients_count_is_gateway_sent (db : DB) (disaster_id : Nat)
    (msg_en msg_sw : String) (phones : List String) (rs : List Bool)
    (h : phones ≠ []) :
    ((send_alert_send db disaster_id msg_en msg_sw phones
        (Gateway.response rs)).alerts.getLast?).map (·.recipients_count) =
      some ((rs.filter (· = true)).length) := by
  rw [send_alert_send_alerts db disaster_id msg_en msg_sw phones (Gateway.response rs) h]
  rw [List.getLast?_concat]
  have hne : phones.isEmpty = false := by simp [List.isEmpty_eq_false, h]
  simp [send_bulk_sms, hne]

/-- Closed instance of `alert_recipients_count_is_gateway_sent`: two
attempted, one reported delivered, stored count 1. -/
theorem alert_recipients_count_is_gateway_sent_witness :
    ((send_alert_send emptyDB 1 "a" "b" ["0712000001", "0712000002"]
        (Gateway.response [true, false])).alerts.getLast?).map (·.recipients_count) =
      some (([true, false].filter (· = true)).length) :=
  alert_recipients_count_is_gateway_sent emptyDB 1 "a" "b"
    ["0712000001", "0712000002"] [true, false] (by decide)

/-- Status lookup after an insert: existing rows win; a fresh id sees the
inserted payload's status. -/
theorem statusOf_insert_disaster (db : DB) (d : DisasterData) (i : Nat) :
    statusOf (insert_disaster db d) i =
      (statusOf db i).or (if db.nextDisasterId = i then some d.status else none) := by
  unfold statusOf insert_disaster
  simp only [List.find?_append]
  cases hf : db.disasters.find? (fun x => x.id == i) with
  | some a => simp
  | none =>
    by_cases hid : db.nextDisasterId = i
    · simp [List.find?, DisasterData.toRow, hid]
    · have hid' : (db.nextDisasterId == i) = false := by simp [hid]
      simp [List.find?, DisasterData.toRow, hid, hid']

/-- Status lookup after the resolve action: the targeted id reads resolved,
every other id is unchanged. -/
theorem statusOf_resolve (db : DB) (disaster_id now i : Nat) :
    statusOf (resolve_disaster db disaster_id now) i =
      (statusOf db i).map (fun s => if i = disaster_id then "resolved" else s) := by
  unfold statusOf resolve_disaster
  simp only [List.find?_map]
  have hpf : ((fun d : Disaster => d.id == i) ∘ (fun d : Disaster =>
      if d.id = disaster_id then { d with status := "resolved", resolved_at := some now }
      else d)) = fun d : Disaster => d.id == i := by
    funext d
    by_cases h : d.id = disaster_id <;> simp [h]
  rw [hpf]
  cases hf : db.disasters.find? (fun d => d.id == i) with
  | none => rfl
  | some a =>
    have ha : a.id = i := by simpa using List.find?_some hf
    simp only [Option.map_some']
    by_cases h : i = disaster_id
    · rw [if_pos (ha.trans h)]
      simp [h]
    · rw [if_neg (fun hc => h (ha.symm.trans hc))]
      simp [h]

/-- C9: incident status is monotonic under every core write operation — a
resolved Incident never reads active again, an existing Incident's status is
either left unchanged or set to resolved, and an id that appears fresh after
an operation carries status active (registrations insert active rows). -/
theorem incident_status_monotonic (db : DB) (op : Op) (i : Nat) :
    (statusOf db i = some "resolved" → statusOf (step db op) i = some "resolved") ∧
    (∀ s, statusOf db i = some s →
       statusOf (step db op) i = some s ∨ statusOf (step db op) i = some "resolved") ∧
    (statusOf db i = none → ∀ s, statusOf (step db op) i = some s → s = "active") := by
  cases op with
  | registerQuake q =>
    have hcases : step db (Op.registerQuake q) = db ∨
        step db (Op.registerQuake q) = insert_disaster db (quakeData q) := by
      simp only [step]
      unfold registerQuake
      split_ifs <;> simp
    rcases hcases with hc | hc
    · rw [hc]
      exact ⟨fun h => h, fun s h => Or.inl h, fun h s hs => by rw [h] at hs; cases hs⟩
    · rw [hc]
      refine ⟨fun h => ?_, fun s h => Or.inl ?_, fun h s hs => ?_⟩
      · rw [statusOf_insert_disaster, h, Option.or_some]
      · rw [statusOf_insert_disaster, h, Option.or_some]
      · rw [statusOf_insert_disaster, h, Option.none_or] at hs
        by_cases hid : db.nextDisasterId = i
        · rw [if_pos hid] at hs
          exact (Option.some.inj hs).symm
        · rw [if_neg hid] at hs
          cases hs
  | registerFires fires =>
    have hcases : step db (Op.registerFires fires) = db ∨
        ∃ fire, step db (Op.registerFires fires) =
          insert_disaster db (fireClusterData fires.length fire) := by
      simp only [step]
      cases fires with
      | nil => simp [registerFires]
      | cons fire rest =>
        simp only [registerFires]
        split_ifs with h1 h2
        · exact Or.inr ⟨fire, rfl⟩
        · exact Or.inl rfl
        · exact Or.inl rfl
    rcases hcases with hc | ⟨fire, hc⟩
    · rw [hc]
      exact ⟨fun h => h, fun s h => Or.inl h, fun h s hs => by rw [h] at hs; cases hs⟩
    · rw [hc]
      refine ⟨fun h => ?_, fun s h => Or.inl ?_, fun h s hs => ?_⟩
      · rw [statusOf_insert_disaster, h, Option.or_some]
      · rw [statusOf_insert_disaster, h, Option.or_some]
      · rw [statusOf_insert_disaster, h, Option.none_or] at hs
        by_cases hid : db.nextDisasterId = i
        · rw [if_pos hid] at hs
          exact (Option.some.inj hs).symm
        · rw [if_neg hid] at hs
          cases hs
  | updateRisk county_id risk_score now =>
    have heq : statusOf (step db (Op.updateRisk county_id risk_score now)) i =
        statusOf db i := rfl
    rw [heq]
    exact ⟨fun h => h, fun s h => Or.inl h, fun h s hs => by rw [h] at hs; cases hs⟩
  | sendAlert disaster_id msg_en msg_sw phones g =>
    have heq : statusOf (step db (Op.sendAlert disaster_id msg_en msg_sw phones g)) i =
        statusOf db i := by
      simp only [step, send_alert_send]
      split <;> rfl
    rw [heq]
    exact ⟨fun h => h, fun s h => Or.inl h, fun h s hs => by rw [h] at hs; cases hs⟩
  | resolve disaster_id now =>
    have heq := statusOf_resolve db disaster_id now i
    simp only [step]
    rw [heq]
    refine ⟨fun h => ?_, fun s h => ?_, fun h s hs => ?_⟩
    · rw [h, Option.map_some']
      by_cases hid : i = disaster_id <;> simp [hid]
    · rw [h, Option.map_some']
      by_cases hid : i = disaster_id
      · exact Or.inr (by simp [hid])
      · exact Or.inl (by simp [hid])
    · rw [h] at hs
      cases hs

/-- Closed instance of `incident_status_monotonic`: resolving an
already-resolved incident leaves it resolved. -/
theorem incident_status_monotonic_witness :
    statusOf (step dbResolved (Op.resolve 1 9)) 1 = some "resolved" :=
  (incident_status_monotonic dbResolved (Op.resolve 1 9) 1).1 (by decide)

/-- C10: a risk-score update for one county rewrites only that county row's
risk_score and last_updated columns — the disasters and alerts tables, the id
counters, every county row with a different id, and the identifying columns
(id, name, region, lat, lng) of every county row are unchanged. -/
theorem update_county_risk_frame (db : DB) (county_id : Nat) (risk_score : ℤ) (now : Nat) :
    (update_county_risk db county_id risk_score now).disasters = db.disasters ∧
    (update_county_risk db county_id risk_score now).alerts = db.alerts ∧
    (update_county_risk db county_id risk_score now).nextDisasterId = db.nextDisasterId ∧
    (update_county_risk db county_id risk_score now).nextAlertId = db.nextAlertId ∧
    (update_county_risk db county_id risk_score now).counties =
      db.counties.map (riskUpdateRow county_id risk_score now) ∧
    (∀ c : County, (riskUpdateRow county_id risk_score now c).id = c.id ∧
       (riskUpdateRow county_id risk_score now c).name = c.name ∧
       (riskUpdateRow county_id risk_score now c).region = c.region ∧
       (riskUpdateRow county_id risk_score now c).lat = c.lat ∧
       (riskUpdateRow county_id risk_score now c).lng = c.lng) ∧
    (∀ c : County, c.id ≠ county_id → riskUpdateRow county_id risk_score now c = c) := by
  refine ⟨rfl, rfl, rfl, rfl, rfl, ?_, ?_⟩
  · intro c
    unfold riskUpdateRow
    split <;> simp
  · intro c h
    unfold riskUpdateRow
    rw [if_neg h]

/-- Closed instance of `update_county_risk_frame`: an update targeting county
id 2 leaves the county row with id 1 unchanged and the disasters table
untouched. -/
theorem update_county_risk_frame_witness :
    (update_county_risk sampleDB 2 80 7).disasters = sampleDB.disasters ∧
    riskUpdateRow 2 80 7 sampleCounty = sampleCounty :=
  ⟨(update_county_risk_frame sampleDB 2 80 7).1,
   (update_county_risk_frame sampleDB 2 80 7).2.2.2.2.2.2 sampleCounty (by decide)⟩

end KDMS
